import Mathlib

/-!
Verification of the x402 starter kit against its specification.

The repository wires an Express server (payment-gated routes, Zerion
portfolio fetch, Groq LLM analysis) to a client that drives the x402
HTTP-402 payment handshake.  The client's payment-aware request pipeline
itself lives in the imported `x402-axios` library — only its call site is
in the repository — so the pipeline is modelled here from the
specification's §4.1 contract, while everything else (wallet/signer
assembly in `src/client/loadWallet.ts`, the `/analyze-basic` route
handler, `cleanJSONText`, `calculateChainDistribution`) is embedded
directly from the source.

Strings are modelled as Lean `String`/`List Char`; JavaScript numbers as
`ℚ` (exact arithmetic); JSON object bodies as association lists of
key/value string pairs.
-/

namespace X402

/-! ### JavaScript string helpers (for `cleanJSONText`, src/server.ts:60-67) -/

/-- The character class removed by `cleanJSONText`'s control-character
regex `[\x00-\x08\x0B\x0C\x0E-\x1F\x7F]`. -/
def badControl (c : Char) : Bool :=
  c.toNat ≤ 8 || c.toNat == 11 || c.toNat == 12 ||
  (14 ≤ c.toNat && c.toNat ≤ 31) || c.toNat == 127

/-- JavaScript whitespace, as recognised by `String.prototype.trim` and by
the regex class `\s`: tab, LF, VT, FF, CR, space, NBSP, the Unicode
space separators, line/paragraph separators and the BOM. -/
def jsWs (c : Char) : Bool :=
  c.toNat == 9 || c.toNat == 10 || c.toNat == 11 || c.toNat == 12 ||
  c.toNat == 13 || c.toNat == 32 || c.toNat == 160 || c.toNat == 0x1680 ||
  (0x2000 ≤ c.toNat && c.toNat ≤ 0x200A) || c.toNat == 0x2028 ||
  c.toNat == 0x2029 || c.toNat == 0x202F || c.toNat == 0x205F ||
  c.toNat == 0x3000 || c.toNat == 0xFEFF

/-- JavaScript `String.prototype.trim`: drop whitespace from both ends. -/
def jsTrim (s : List Char) : List Char :=
  ((s.dropWhile jsWs).reverse.dropWhile jsWs).reverse

/-- Greedy `\s*`: drop the leading whitespace run. -/
def dropWsRun (s : List Char) : List Char := s.dropWhile jsWs

/-- Whether `pat` is an initial segment of `s`. -/
def matchesAt : List Char → List Char → Bool
  | [], _ => true
  | _ :: _, [] => false
  | p :: ps, c :: cs => p == c && matchesAt ps cs

/-- One `replace(/^PAT\s*/m, "")` step: at the first line start where
`PAT` matches, delete `PAT` and the following whitespace run; `atStart`
tracks whether the current position begins a line. -/
def replAnchoredAux (pat : List Char) : Bool → List Char → List Char
  | _, [] => []
  | atStart, c :: cs =>
    if atStart && matchesAt pat (c :: cs) then
      dropWsRun ((c :: cs).drop pat.length)
    else
      c :: replAnchoredAux pat (c == '\n') cs

/-- JavaScript `s.replace(/^PAT\s*/m, "")` for a literal `PAT` (first
match only; `^` with the `m` flag matches at the string start or after a
newline). -/
def replAnchored (pat : List Char) (s : List Char) : List Char :=
  replAnchoredAux pat true s

/-- `$` with the `m` flag: the position is the end of the string or just
before a newline. -/
def atEOL : List Char → Bool
  | [] => true
  | c :: _ => c == '\n'

/-- Backtracking for `\s*$`: the largest `j ≤ k` such that after
consuming `j` whitespace characters the position is a line end. -/
def backtrackEOL (s : List Char) : Nat → Option Nat
  | 0 => if atEOL s then some 0 else none
  | j + 1 => if atEOL (s.drop (j + 1)) then some (j + 1) else backtrackEOL s j

/-- Length of the whitespace run at the head of `s`. -/
def wsRunLen (s : List Char) : Nat := (s.takeWhile jsWs).length

/-- Attempt to match ``/```\s*$/`` at the head of `s`; returns the length
of the matched segment. -/
def matchTicksEOL (s : List Char) : Option Nat :=
  if matchesAt ['`', '`', '`'] s then
    let rest := s.drop 3
    match backtrackEOL rest (wsRunLen rest) with
    | some j => some (3 + j)
    | none => none
  else none

/-- JavaScript ``s.replace(/```\s*$/m, "")`` (first match only). -/
def replTicksEOL : List Char → List Char
  | [] => []
  | c :: cs =>
    match matchTicksEOL (c :: cs) with
    | some n => (c :: cs).drop n
    | none => c :: replTicksEOL cs

/-- The global control-character removal
`replace(/[\x00-\x08\x0B\x0C\x0E-\x1F\x7F]/g, "")`. -/
def removeControl (s : List Char) : List Char :=
  s.filter (fun c => !badControl c)

/-- `cleanJSONText` from `src/server.ts:60-67` (identical copy in
`src/server/services/ai.service.ts:230-237`): trim, strip a leading
markdown fence (```` ```json ```` then ```` ``` ````), strip a trailing
fence, remove control characters, trim again. -/
def cleanJSONText (s : List Char) : List Char :=
  jsTrim (removeControl (replTicksEOL
    (replAnchored ['`', '`', '`'] (replAnchored
      ['`', '`', '`', 'j', 's', 'o', 'n'] (jsTrim s)))))

/-! ### Chain distribution (src/server/services/ai.service.ts:205-214) -/

/-- A Zerion position, restricted to the fields
`calculateChainDistribution` reads: the optional chain id at
`relationships?.chain?.data?.id` and the numeric `attributes.value`
(JavaScript numbers modelled as `ℚ`). -/
structure Position where
  chainId : Option String
  value : ℚ

/-- The key `pos.relationships?.chain?.data?.id || "unknown"`: a missing
or empty (falsy) chain id falls back to `"unknown"`. -/
def chainKey (p : Position) : String :=
  match p.chainId with
  | none => "unknown"
  | some c => if c = "" then "unknown" else c

/-- `chainDistribution[chain] = (chainDistribution[chain] || 0) + value`
on an association-list model of the record: add `v` to the entry for
`k`, creating it at 0 if absent. -/
def bumpChain (k : String) (v : ℚ) : List (String × ℚ) → List (String × ℚ)
  | [] => [(k, v)]
  | (k0, v0) :: rest =>
    if k0 = k then (k0, v0 + v) :: rest else (k0, v0) :: bumpChain k v rest

/-- `calculateChainDistribution` from
`src/server/services/ai.service.ts:205-214`: fold the positions into a
record mapping chain ids to accumulated values. -/
def calculateChainDistribution (ps : List Position) : List (String × ℚ) :=
  ps.foldl (fun m p => bumpChain (chainKey p) p.value m) []

/-- Sum of the values stored in the distribution record. -/
def distTotal (m : List (String × ℚ)) : ℚ := (m.map Prod.snd).sum

/-! ### The `/analyze-basic` route handler
(src/server/routes/wallet.routes.ts:6-37, duplicated at
src/server.ts:249-279) -/

/-- A JSON error body `{error, message}` as produced by the handler. -/
structure ErrorBody where
  error : String
  message : String
deriving DecidableEq

/-- JavaScript truthiness of the `address` field, modelled for string or
absent values: `undefined`/missing and the empty string are falsy. -/
def addrTruthy : Option String → Bool
  | none => false
  | some s => s != ""

/-- The handler's observable outcome: HTTP status, the error body when
one was sent, the analysis when one was produced, and whether
`analyzeBasicWallet` was invoked. -/
structure HandlerOut (α : Type) where
  status : Nat
  errBody : Option ErrorBody
  analysis : Option α
  calledAnalyze : Bool
deriving DecidableEq

/-- The `POST /analyze-basic` handler from
`src/server/routes/wallet.routes.ts:6-37`: a falsy `address` yields a 400
with a fixed error body before `analyzeBasicWallet` runs; otherwise the
handler invokes `analyzeBasicWallet` (its outcome passed in as
`analyzeOutcome`, since it performs network I/O) and returns its result
or a 500 on failure. -/
def analyzeBasicHandler {α : Type} (address : Option String)
    (analyzeOutcome : Except String α) : HandlerOut α :=
  if !addrTruthy address then
    ⟨400, some ⟨"Missing required field: address",
      "Please provide a wallet address to analyze"⟩, none, false⟩
  else
    match analyzeOutcome with
    | .ok a => ⟨200, none, some a, true⟩
    | .error m => ⟨500, some ⟨"Analysis failed", m⟩, none, true⟩

/-! ### Wallet / signer assembly (src/client/loadWallet.ts) -/

/-- The decoded Solana wallet returned by `loadSolanaWallet`
(src/client/loadWallet.ts:17-29). -/
structure SolanaWallet where
  privateKeyBase58 : String
  publicKey : String
deriving DecidableEq

/-- A signer as produced by `createSigner(network, key)`: a capability
bound to one network (the key material kept opaque as a string). -/
structure SignerHandle where
  network : String
  keyId : String
deriving DecidableEq

/-- The `signer` value assembled by `loadMultiNetworkSigners`: either a
single-network signer or the `{ evm, svm }` `MultiNetworkSigner`
record. -/
inductive ClientSigner where
  | single (h : SignerHandle)
  | multi (evm : SignerHandle) (svm : SignerHandle)
deriving DecidableEq

/-- The `walletInfo` record: `solana` holds `(address, network)` when the
Solana wallet loaded, `evm` holds the network when an EVM key is
configured. -/
structure WalletInfo where
  solana : Option (String × String)
  evm : Option String
deriving DecidableEq

/-- JavaScript truthiness of `EVM_PRIVATE_KEY` (`if (EVM_PRIVATE_KEY)`):
absent or empty is falsy. -/
def evmTruthy : Option String → Bool
  | none => false
  | some k => k != ""

/-- `loadMultiNetworkSigners` from `src/client/loadWallet.ts:32-79`.
`solanaLoad` is the outcome of the `loadSolanaWallet()` call (a file-I/O
wrapper, out of the spec's scope), which the source wraps in try/catch;
`evmPrivateKey` is `EVM_PRIVATE_KEY`.  No wallet at all throws
`"No wallets available"`; otherwise the signer and `walletInfo` are
assembled for multi-network, Solana-only or EVM-only mode. -/
def loadMultiNetworkSigners (solanaLoad : Except String SolanaWallet)
    (evmPrivateKey : Option String) (solNet evmNet : String) :
    Except String (ClientSigner × WalletInfo) :=
  let solanaWallet : Option SolanaWallet := solanaLoad.toOption
  let hasEVM : Bool := evmTruthy evmPrivateKey
  match solanaWallet, hasEVM with
  | none, false => .error "No wallets available"
  | some w, true =>
      .ok (.multi ⟨evmNet, evmPrivateKey.getD ""⟩ ⟨solNet, w.privateKeyBase58⟩,
        ⟨some (w.publicKey, solNet), some evmNet⟩)
  | some w, false =>
      .ok (.single ⟨solNet, w.privateKeyBase58⟩,
        ⟨some (w.publicKey, solNet), none⟩)
  | none, true =>
      .ok (.single ⟨evmNet, evmPrivateKey.getD ""⟩, ⟨none, some evmNet⟩)

/-! ### The payment-aware request pipeline

Modelled from the spec: the pipeline (`withPaymentInterceptor`'s
behaviour) is implemented by the external `x402-axios` library; only its
call sites `src/client.ts:101-104` and the client entry point are in the
repository.  The definitions below follow the spec's §4.1 contract for
`execute(request) -> PipelineResult` step by step. -/

/-- Modelled from the spec: a `PaymentChallenge` carried in a 402
response body — network id, asset id, recipient, amount in minor units,
nonce (§3, §6). -/
structure PaymentChallenge where
  network : String
  asset : String
  recipient : String
  amount : Nat
  nonce : String
deriving DecidableEq

/-- Modelled from the spec: an HTTP response, the status plus a JSON
object body flattened to key/value string pairs. -/
structure Response where
  status : Nat
  body : List (String × String)
deriving DecidableEq

/-- First value bound to key `k` in a JSON-object association list. -/
def findField (k : String) : List (String × String) → Option String
  | [] => none
  | (k0, v) :: rest => if k0 = k then some v else findField k rest

/-- Parse a decimal numeral (the challenge's minor-unit amount). -/
def parseAmount (s : String) : Option Nat :=
  if s.data ≠ [] ∧ s.data.all Char.isDigit then
    some (s.data.foldl (fun acc c => acc * 10 + (c.toNat - 48)) 0)
  else none

/-- Modelled from the spec: parse a 402 body as a `PaymentChallenge`;
each of the required fields `{network, asset, recipient, amount, nonce}`
must be present and `amount` must be numeric, else parsing fails
(§4.1 step 3, §6). -/
def parseChallenge (b : List (String × String)) : Option PaymentChallenge :=
  match findField "network" b, findField "asset" b, findField "recipient" b,
      findField "amount" b, findField "nonce" b with
  | some n, some a, some r, some amt, some nc =>
      match parseAmount amt with
      | some v => some ⟨n, a, r, v, nc⟩
      | none => none
  | _, _, _, _, _ => none

/-- Modelled from the spec: look up the `SignerHandle` for
`challenge.network` in the Network Signer Registry (§4.1 step 4); the
registry maps network ids to signers. -/
def lookupSigner (reg : List SignerHandle) (net : String) : Option SignerHandle :=
  match reg with
  | [] => none
  | s :: rest => if s.network = net then some s else lookupSigner rest net

/-- Modelled from the spec: a `PaymentToken` — the serialized signed
transfer, the network id, and the challenge nonce echo (§3, §4.1
steps 5-6). -/
structure PaymentToken where
  serialized : String
  network : String
  nonceEcho : String
deriving DecidableEq

/-- Modelled from the spec: sign a transfer of `challenge.amount` of
`challenge.asset` to `challenge.recipient` with the selected signer and
serialize it with the nonce echo (§4.1 steps 5-6; the cryptography is an
opaque collaborator, so serialization is symbolic). -/
def signToken (s : SignerHandle) (ch : PaymentChallenge) : PaymentToken :=
  ⟨s.keyId ++ ":" ++ ch.asset ++ ":" ++ ch.recipient ++ ":" ++
    toString ch.amount, ch.network, ch.nonce⟩

/-- Modelled from the spec: the pipeline's error taxonomy (§7), with the
context each error carries. -/
inductive PipelineError where
  | challengeParse
  | unsupportedNetwork (network : String)
  | paymentRejected (status : Nat)
deriving DecidableEq

/-- Modelled from the spec: the `PipelineResult` returned to the caller —
final HTTP status and body (§3). -/
structure PipelineResult where
  status : Nat
  body : List (String × String)
deriving DecidableEq

instance {ε α : Type} [DecidableEq ε] [DecidableEq α] : DecidableEq (Except ε α)
  | .ok x, .ok y => decidable_of_iff (x = y) (by simp)
  | .ok _, .error _ => .isFalse (by simp)
  | .error _, .ok _ => .isFalse (by simp)
  | .error e, .error f => decidable_of_iff (e = f) (by simp)

/-- Everything observable about one `execute` invocation: how many HTTP
calls were issued, which payment tokens were produced, and the result. -/
structure ExecOutcome where
  calls : Nat
  tokens : List PaymentToken
  result : Except PipelineError PipelineResult
deriving DecidableEq

/-- Modelled from the spec: `execute(request) -> PipelineResult`
(§4.1).  `server n` is the server's response to the pipeline's `n`-th
HTTP call.  Send the request; a non-402 is returned as-is; on a 402,
parse the challenge (failure → `ChallengeParseError`, no retry), look up
the signer (absence → `UnsupportedNetworkError`, no retry), sign and
attach a `PaymentToken`, re-issue exactly once; a second 402 surfaces
`PaymentRejectedError` and is never retried again. -/
def execute (reg : List SignerHandle) (server : Nat → Response) : ExecOutcome :=
  if (server 0).status = 402 then
    match parseChallenge (server 0).body with
    | none => ⟨1, [], .error .challengeParse⟩
    | some ch =>
      match lookupSigner reg ch.network with
      | none => ⟨1, [], .error (.unsupportedNetwork ch.network)⟩
      | some sg =>
        if (server 1).status = 402 then
          ⟨2, [signToken sg ch], .error (.paymentRejected (server 1).status)⟩
        else
          ⟨2, [signToken sg ch], .ok ⟨(server 1).status, (server 1).body⟩⟩
  else ⟨1, [], .ok ⟨(server 0).status, (server 0).body⟩⟩

/-- The registry of per-network signers reachable from an assembled
`ClientSigner` value (the `{ evm, svm }` record or a single signer). -/
def regOf : ClientSigner → List SignerHandle
  | .single h => [h]
  | .multi e s => [e, s]

/-- A client session: starting from the registry built once at startup,
run `execute` for each request in turn, threading the registry through
unchanged (the source never writes to `signer` after
`loadMultiNetworkSigners` returns). -/
def runSession (reg : List SignerHandle) (servers : List (Nat → Response)) :
    List SignerHandle × List ExecOutcome :=
  servers.foldl (fun st server => (st.1, st.2 ++ [execute st.1 server])) (reg, [])

/-- Boolean check that a character list neither starts nor ends with
JavaScript whitespace. -/
def noEdgeWs (l : List Char) : Bool :=
  (match l.head? with | some c => !jsWs c | none => true) &&
  (match l.getLast? with | some c => !jsWs c | none => true)

/-! ### Supporting lemmas -/

lemma head?_dropWhile_not (p : Char → Bool) :
    ∀ (l : List Char) (c : Char), (l.dropWhile p).head? = some c → p c = false := by
  intro l
  induction l with
  | nil => intro c h; simp [List.dropWhile] at h
  | cons a l ih =>
    intro c h
    rw [List.dropWhile_cons] at h
    by_cases hp : p a = true
    · rw [if_pos hp] at h
      exact ih c h
    · rw [if_neg hp] at h
      simp only [List.head?_cons, Option.some.injEq] at h
      subst h
      exact Bool.eq_false_iff.mpr hp

lemma mem_of_mem_jsTrim {c : Char} {l : List Char} (h : c ∈ jsTrim l) : c ∈ l := by
  unfold jsTrim at h
  rw [List.mem_reverse] at h
  have h2 := (List.dropWhile_suffix jsWs).sublist.subset h
  rw [List.mem_reverse] at h2
  exact (List.dropWhile_suffix jsWs).sublist.subset h2

lemma jsTrim_head {l : List Char} {c : Char} (h : (jsTrim l).head? = some c) :
    jsWs c = false := by
  unfold jsTrim at h
  rw [List.head?_reverse] at h
  obtain ⟨t, ht⟩ := List.dropWhile_suffix (l := (l.dropWhile jsWs).reverse) jsWs
  have hne : ((l.dropWhile jsWs).reverse).dropWhile jsWs ≠ [] := by
    intro hnil
    rw [hnil] at h
    simp at h
  have hlast : ((l.dropWhile jsWs).reverse).getLast? = some c := by
    rw [← ht, List.getLast?_append_of_ne_nil _ hne]
    exact h
  rw [List.getLast?_reverse] at hlast
  exact head?_dropWhile_not jsWs l c hlast

lemma jsTrim_last {l : List Char} {c : Char} (h : (jsTrim l).getLast? = some c) :
    jsWs c = false := by
  unfold jsTrim at h
  rw [List.getLast?_reverse] at h
  exact head?_dropWhile_not jsWs _ c h

lemma distTotal_bumpChain (k : String) (v : ℚ) :
    ∀ m, distTotal (bumpChain k v m) = distTotal m + v := by
  intro m
  induction m with
  | nil => simp [bumpChain, distTotal]
  | cons p rest ih =>
    obtain ⟨k0, v0⟩ := p
    by_cases hk : k0 = k
    · simp [bumpChain, hk, distTotal]
      ring
    · simp only [bumpChain, if_neg hk, distTotal, List.map_cons, List.sum_cons]
      simp only [distTotal] at ih
      rw [ih]
      ring

lemma distTotal_foldl :
    ∀ (ps : List Position) (m : List (String × ℚ)),
      distTotal (ps.foldl (fun m p => bumpChain (chainKey p) p.value m) m) =
        distTotal m + (ps.map Position.value).sum := by
  intro ps
  induction ps with
  | nil => intro m; simp
  | cons p rest ih =>
    intro m
    simp only [List.foldl_cons, List.map_cons, List.sum_cons, ih,
      distTotal_bumpChain]
    ring

lemma runSession_acc (reg : List SignerHandle) :
    ∀ (servers : List (Nat → Response)) (acc : List ExecOutcome),
      servers.foldl (fun st server => (st.1, st.2 ++ [execute st.1 server]))
          (reg, acc) =
        (reg, acc ++ servers.map (fun server => execute reg server)) := by
  intro servers
  induction servers with
  | nil => intro acc; simp
  | cons s rest ih =>
    intro acc
    simp only [List.foldl_cons, List.map_cons, ih]
    simp

/-! ### Claims -/

/-- C9: for every input string, `cleanJSONText` returns a string with no
control characters from the removed class and no leading or trailing
whitespace. -/
theorem cleanJSONText_no_control_no_edge_ws (s : List Char) :
    ((cleanJSONText s).all (fun c => !badControl c) &&
      noEdgeWs (cleanJSONText s)) = true := by
  rw [Bool.and_eq_true]
  constructor
  · rw [List.all_eq_true]
    intro c hc
    have hmem := mem_of_mem_jsTrim hc
    unfold removeControl at hmem
    rw [List.mem_filter] at hmem
    exact hmem.2
  · unfold noEdgeWs
    rw [Bool.and_eq_true]
    constructor
    · cases hh : (cleanJSONText s).head? with
      | none => simp
      | some c => simp [jsTrim_head hh]
    · cases hh : (cleanJSONText s).getLast? with
      | none => simp
      | some c => simp [jsTrim_last hh]

/-- C10: grouping positions by chain preserves total value — the sum over
all chains of the values in `calculateChainDistribution positions` equals
the sum of `attributes.value` over all positions. -/
theorem calculateChainDistribution_total (ps : List Position) :
    distTotal (calculateChainDistribution ps) = (ps.map Position.value).sum := by
  unfold calculateChainDistribution
  rw [distTotal_foldl]
  simp [distTotal]

/-! ### Concrete fixtures used by witnesses and counterexamples -/

/-- A well-formed 402 challenge body (the spec's §8 concrete scenario). -/
def chalBody : List (String × String) :=
  [("network", "solana-devnet"), ("asset", "USDC"), ("recipient", "R1"),
   ("amount", "5000"), ("nonce", "n1")]

/-- The parsed form of `chalBody`. -/
def chal : PaymentChallenge := ⟨"solana-devnet", "USDC", "R1", 5000, "n1"⟩

/-- A 402 response carrying `chalBody`. -/
def chal402 : Response := ⟨402, chalBody⟩

/-- A registry holding one Solana-devnet signer. -/
def regSol : List SignerHandle := [⟨"solana-devnet", "k0"⟩]

/-- A server that answers 402 with a valid challenge to every call. -/
def serverAlways402 : Nat → Response := fun _ => chal402

/-- A server that challenges the first call and accepts the retry. -/
def serverPaid : Nat → Response :=
  fun n => if n = 0 then chal402 else ⟨200, [("data", "premium")]⟩

/-- A server whose 402 body is missing the required `amount` field. -/
def serverMalformed : Nat → Response :=
  fun _ => ⟨402, [("network", "solana-devnet"), ("asset", "USDC"),
    ("recipient", "R1"), ("nonce", "n1")]⟩

/-! ### Pipeline claims -/

/-- C1: the pipeline issues at most one retry — never more than 2 HTTP
calls for any sequence of server responses — and when the retried request
again returns 402 it surfaces `PaymentRejectedError` rather than issuing
a third request. -/
theorem execute_at_most_one_retry (reg : List SignerHandle)
    (server : Nat → Response) :
    (execute reg server).calls ≤ 2 ∧
    ((server 0).status = 402 →
      ∀ ch sg, parseChallenge (server 0).body = some ch →
        lookupSigner reg ch.network = some sg →
        (server 1).status = 402 →
        execute reg server =
          ⟨2, [signToken sg ch], .error (.paymentRejected 402)⟩) := by
  constructor
  · unfold execute
    split
    · split
      · norm_num
      · split
        · norm_num
        · split <;> norm_num
    · norm_num
  · intro h0 ch sg hch hsg h1
    simp [execute, h0, hch, hsg, h1]

/-- C1 witness: a server that always answers 402 drives the concrete
pipeline to exactly 2 calls and `PaymentRejectedError`. -/
theorem execute_at_most_one_retry_witness :
    (execute regSol serverAlways402).calls ≤ 2 ∧
    execute regSol serverAlways402 =
      ⟨2, [signToken ⟨"solana-devnet", "k0"⟩ chal],
        .error (.paymentRejected 402)⟩ :=
  have h := execute_at_most_one_retry regSol serverAlways402
  ⟨h.1, h.2 rfl chal ⟨"solana-devnet", "k0"⟩ (by decide) (by decide) rfl⟩

/-- C2 counterexample: with a valid challenge whose network is registered
but a server that rejects the retry with a second 402, `execute` does not
return the second response's body and status — it returns
`PaymentRejectedError` — so the claim fails as universally stated. -/
theorem execute_returns_second_counterexample :
    (serverAlways402 0).status = 402 ∧
    parseChallenge (serverAlways402 0).body = some chal ∧
    lookupSigner regSol chal.network = some ⟨"solana-devnet", "k0"⟩ ∧
    (execute regSol serverAlways402).result ≠
      .ok ⟨(serverAlways402 1).status, (serverAlways402 1).body⟩ ∧
    (execute regSol serverAlways402).result =
      .error (.paymentRejected 402) := by
  refine ⟨rfl, by decide, by decide, by decide, by decide⟩

/-- C2 (amended): for a first response of 402 carrying a parseable
challenge whose network has a registered signer, `execute` issues exactly
2 HTTP calls and, provided the retried response's status is not 402,
returns the second response's body and status unchanged. -/
theorem execute_two_calls_returns_second (reg : List SignerHandle)
    (server : Nat → Response) (ch : PaymentChallenge) (sg : SignerHandle)
    (h0 : (server 0).status = 402)
    (hch : parseChallenge (server 0).body = some ch)
    (hsg : lookupSigner reg ch.network = some sg) :
    (execute reg server).calls = 2 ∧
    ((server 1).status ≠ 402 →
      (execute reg server).result =
        .ok ⟨(server 1).status, (server 1).body⟩) := by
  constructor
  · simp only [execute, h0, hch, hsg, if_pos]
    split <;> rfl
  · intro h1
    simp [execute, h0, hch, hsg, h1]

/-- C2 witness: the paying server yields exactly 2 calls and the second
response verbatim. -/
theorem execute_two_calls_returns_second_witness :
    (execute regSol serverPaid).calls = 2 ∧
    (execute regSol serverPaid).result = .ok ⟨200, [("data", "premium")]⟩ :=
  have h := execute_two_calls_returns_second regSol serverPaid chal
    ⟨"solana-devnet", "k0"⟩ rfl (by decide) (by decide)
  ⟨h.1, h.2 (by decide)⟩

/-- C3: a 402 challenge naming a network with no registered signer makes
`execute` stop after exactly 1 HTTP call, produce no `PaymentToken`, and
fail with `UnsupportedNetworkError` — no second call, no fallback
signer. -/
theorem execute_unsupported_network (reg : List SignerHandle)
    (server : Nat → Response) (ch : PaymentChallenge)
    (h0 : (server 0).status = 402)
    (hch : parseChallenge (server 0).body = some ch)
    (hsg : lookupSigner reg ch.network = none) :
    execute reg server = ⟨1, [], .error (.unsupportedNetwork ch.network)⟩ := by
  simp [execute, h0, hch, hsg]

/-- C3 witness: an empty registry rejects the Solana challenge after one
call. -/
theorem execute_unsupported_network_witness :
    execute [] serverAlways402 =
      ⟨1, [], .error (.unsupportedNetwork "solana-devnet")⟩ :=
  execute_unsupported_network [] serverAlways402 chal rfl (by decide) rfl

/-- C6: a 402 whose body does not parse as a `PaymentChallenge` (for
instance, missing `amount`) makes `execute` fail with
`ChallengeParseError` after exactly 1 HTTP call and zero retries. -/
theorem execute_challenge_parse_error (reg : List SignerHandle)
    (server : Nat → Response)
    (h0 : (server 0).status = 402)
    (hch : parseChallenge (server 0).body = none) :
    execute reg server = ⟨1, [], .error .challengeParse⟩ := by
  simp [execute, h0, hch]

/-- C6 witness: a challenge body missing the `amount` field yields
`ChallengeParseError` with a single call. -/
theorem execute_challenge_parse_error_witness :
    execute regSol serverMalformed = ⟨1, [], .error .challengeParse⟩ :=
  execute_challenge_parse_error regSol serverMalformed rfl (by decide)

/-- C4: when loading the Solana credentials fails, registry construction
does not silently keep a Solana entry — it either fails outright
(`"No wallets available"`, no EVM key configured) or degrades to the
explicit EVM-only single-network mode (`walletInfo.solana = none`, the
signer holds only the EVM handle). -/
theorem loadMultiNetworkSigners_fail_fast (e : String) (evmKey : Option String)
    (solNet evmNet : String) :
    (evmTruthy evmKey = false →
      loadMultiNetworkSigners (.error e) evmKey solNet evmNet =
        .error "No wallets available") ∧
    (evmTruthy evmKey = true →
      loadMultiNetworkSigners (.error e) evmKey solNet evmNet =
        .ok (.single ⟨evmNet, evmKey.getD ""⟩, ⟨none, some evmNet⟩)) := by
  constructor
  · intro h
    simp [loadMultiNetworkSigners, Except.toOption, h]
  · intro h
    simp [loadMultiNetworkSigners, Except.toOption, h]

/-- C4 witness: with no EVM key the failed Solana load aborts
construction; with an EVM key it degrades to EVM-only mode. -/
theorem loadMultiNetworkSigners_fail_fast_witness :
    loadMultiNetworkSigners (.error "boom") none "solana-devnet"
        "base-sepolia" = .error "No wallets available" ∧
    loadMultiNetworkSigners (.error "boom") (some "0xabc") "solana-devnet"
        "base-sepolia" =
      .ok (.single ⟨"base-sepolia", "0xabc"⟩, ⟨none, some "base-sepolia"⟩) :=
  ⟨(loadMultiNetworkSigners_fail_fast "boom" none "solana-devnet"
      "base-sepolia").1 rfl,
   (loadMultiNetworkSigners_fail_fast "boom" (some "0xabc") "solana-devnet"
      "base-sepolia").2 (by decide)⟩

/-- C7: the Network Signer Registry is built once by
`loadMultiNetworkSigners` and never mutated afterward — running any
sequence of pipeline invocations leaves the registry equal to the one
built at startup, and every invocation reads that same signer mapping. -/
theorem registry_built_once_read_only (solanaLoad : Except String SolanaWallet)
    (evmKey : Option String) (solNet evmNet : String)
    (res : ClientSigner × WalletInfo) (servers : List (Nat → Response))
    (_h : loadMultiNetworkSigners solanaLoad evmKey solNet evmNet = .ok res) :
    runSession (regOf res.1) servers =
      (regOf res.1, servers.map (fun server => execute (regOf res.1) server)) := by
  unfold runSession
  simpa using runSession_acc (regOf res.1) servers []

/-- C7 witness: a concrete Solana-only registry survives a session
unchanged and the single invocation reads it. -/
theorem registry_built_once_read_only_witness :
    runSession (regOf (ClientSigner.single ⟨"solana-devnet", "sk"⟩))
        [serverPaid] =
      (regOf (ClientSigner.single ⟨"solana-devnet", "sk"⟩),
        [execute (regOf (ClientSigner.single ⟨"solana-devnet", "sk"⟩))
          serverPaid]) :=
  registry_built_once_read_only (.ok ⟨"sk", "pk"⟩) none "solana-devnet"
    "base-sepolia"
    (ClientSigner.single ⟨"solana-devnet", "sk"⟩,
      ⟨some ("pk", "solana-devnet"), none⟩)
    [serverPaid] rfl

/-- C8: a `POST /analyze-basic` body without a truthy `address` field is
answered with status 400 and the fixed error body, and
`analyzeBasicWallet` is never invoked. -/
theorem analyzeBasicHandler_missing_address {α : Type} (address : Option String)
    (analyzeOutcome : Except String α) (h : addrTruthy address = false) :
    analyzeBasicHandler address analyzeOutcome =
      ⟨400, some ⟨"Missing required field: address",
        "Please provide a wallet address to analyze"⟩, none, false⟩ := by
  simp [analyzeBasicHandler, h]

/-- C8 witness: an absent `address` triggers the 400 path without calling
the analyzer. -/
theorem analyzeBasicHandler_missing_address_witness :
    addrTruthy none = false ∧
    analyzeBasicHandler (α := Nat) none (.ok 0) =
      ⟨400, some ⟨"Missing required field: address",
        "Please provide a wallet address to analyze"⟩, none, false⟩ :=
  ⟨rfl, analyzeBasicHandler_missing_address none (.ok 0) rfl⟩

end X402
